import Mathlib

/-!
Verification of the conversation-session orchestrator of the stratbot
repository: a shallow embedding of `handleSendMessage`,
`handleSelectSession`, `handleDeleteSession` (App.tsx) and of
`sendMessageToAssistant` / `extractSuffixFromToken` (services), with
theorems settling the specification claims about them.
-/

set_option maxHeartbeats 1000000

/-! ## Data model (App.tsx / services) -/

/-- Role of a chat message: `role: 'user' | 'assistant'`. -/
inductive Role where
  | user
  | assistant
deriving Repr, DecidableEq, BEq

/-- `Message` of the services module: `{ id, content: string[], role, timestamp }`.
The timestamp (`Date`) is modelled as a natural number of milliseconds. -/
structure Message where
  id : String
  content : List String
  role : Role
  timestamp : Nat
deriving Repr, DecidableEq

/-- `Session` of the services module: `{ id, company_uuid, openai_thread_id }`. -/
structure Session where
  id : String
  company_uuid : String
  openai_thread_id : String
deriving Repr, DecidableEq

/-- The React state of `App` that the orchestrator logic reads and writes:
`messages`, `input`, `isLoading`, `sessionId`, `sessions`. -/
structure AppState where
  messages : List Message
  input : String
  isLoading : Bool
  sessionId : Option String
  sessions : List Session
deriving Repr, DecidableEq

/-- Network requests the handlers can issue, used to state which operations
touch the network. -/
inductive NetRequest where
  | fetchMessages (sid : String)
  | postMessage (sid : String) (content : String)
deriving Repr, DecidableEq

/-- A JavaScript thrown value as discriminated by the catch blocks:
an `Error` instance (carrying `.message`), a plain string, or anything else. -/
inductive JsError where
  | errObj (msg : String)
  | strVal (s : String)
  | otherVal
deriving Repr, DecidableEq

/-! ## JavaScript string primitives used by the source -/

/-- The character class removed by JavaScript `String.prototype.trim`
(WhiteSpace and LineTerminator code points). -/
def isJsWhitespace (c : Char) : Bool :=
  let n := c.toNat
  n == 9 || n == 10 || n == 11 || n == 12 || n == 13 || n == 32 || n == 160 ||
  n == 0x1680 || (decide (0x2000 ≤ n) && decide (n ≤ 0x200A)) ||
  n == 0x2028 || n == 0x2029 || n == 0x202F || n == 0x205F ||
  n == 0x3000 || n == 0xFEFF

/-- JavaScript `s.trim()`: strip leading and trailing whitespace. -/
def jsTrim (s : String) : String :=
  String.mk (((s.data.dropWhile isJsWhitespace).reverse.dropWhile isJsWhitespace).reverse)

/-- JavaScript `s.substring(start, stop)` for `start ≤ stop`:
the characters of positions `[start, stop)`. -/
def jsSubstring (s : String) (start stop : Nat) : String :=
  String.mk ((s.data.take stop).drop start)

/-- JavaScript `s.substring(start)`: the characters from `start` to the end. -/
def jsSubstringFrom (s : String) (start : Nat) : String :=
  String.mk (s.data.drop start)

/-! ## extractSuffixFromToken (services, lines 284-292) -/

/-- `extractSuffixFromToken(token)`: `null` when `token.length < 10`,
otherwise `token.substring(0, 5) + token.substring(token.length - 5)`. -/
def extractSuffixFromToken (token : String) : Option String :=
  if token.length < 10 then none
  else some (jsSubstring token 0 5 ++ jsSubstringFrom token (token.length - 5))

/-! ## handleSendMessage (App.tsx, lines 116-180)

The handler is split at its unique suspension point: `handleSendPhase1` is
the synchronous part (guard, optimistic user append, no-session branch,
dispatch), and `handleSendSettle` is the continuation run when the
`sendMessageToSession` promise settles (`.then` / `.catch`).
-/

/-- What the synchronous part of `handleSendMessage` did. -/
inductive SendAction where
  | noop
  | noSession
  | dispatched (sid : String) (content : String)
deriving Repr, DecidableEq

/-- The network requests issued by the synchronous part of a send. -/
def sendRequests : SendAction → List NetRequest
  | .dispatched sid content => [.postMessage sid content]
  | _ => []

/-- The optimistic user message built by `handleSendMessage`:
`{ id: Date.now().toString(), content: [input.trim()], role: 'user', timestamp: new Date() }`. -/
def userMessageOf (input : String) (now : Nat) : Message :=
  { id := toString now
    content := [jsTrim input]
    role := .user
    timestamp := now }

/-- The synthetic assistant message appended when no session is active:
`{ id: (Date.now() + 1).toString(), content: ["Error: No active session. ..."], role: 'assistant' }`. -/
def noSessionMessage (now : Nat) : Message :=
  { id := toString (now + 1)
    content := ["Error: No active session. Please create a new conversation."]
    role := .assistant
    timestamp := now }

/-- The `.catch` conversion of a thrown value into displayable text:
`error.message` for an `Error`, the string itself for a string, and a
generic apology otherwise. -/
def errorDisplayContent : JsError → String
  | .errObj m => m
  | .strVal s => s
  | .otherVal => "Sorry, there was an error processing your request. Please try again later."

/-- The synthetic assistant message appended by the `.catch` branch:
`{ id: (Date.now() + 1).toString(), content: [errorContent], role: 'assistant' }`. -/
def settleErrorMessage (e : JsError) (nowErr : Nat) : Message :=
  { id := toString (nowErr + 1)
    content := [errorDisplayContent e]
    role := .assistant
    timestamp := nowErr }

/-- Synchronous part of `handleSendMessage`: the guard
`if (!input.trim() || isLoading) return;`, the optimistic user append with
`setInput('')` and `setIsLoading(true)`, then either the no-session error
branch or the dispatch of `sendMessageToSession(sessionId, content)`. -/
def handleSendPhase1 (st : AppState) (now : Nat) : AppState × SendAction :=
  if jsTrim st.input = "" ∨ st.isLoading = true then (st, .noop)
  else
    let userMsg := userMessageOf st.input now
    let st1 : AppState :=
      { st with messages := st.messages ++ [userMsg], input := "", isLoading := true }
    match st.sessionId with
    | none =>
        ({ st1 with
            isLoading := false
            messages := st1.messages ++ [noSessionMessage now] }, .noSession)
    | some sid => (st1, .dispatched sid (jsTrim st.input))

/-- Continuation of `handleSendMessage` when the dispatched promise settles:
on success `setMessages(updatedMessages)` (the authoritative list verbatim)
and `setIsLoading(false)`; on failure append the error-display assistant
message and `setIsLoading(false)`. -/
def handleSendSettle (st : AppState) (nowErr : Nat)
    (outcome : Except JsError (List Message)) : AppState :=
  match outcome with
  | .ok updated => { st with messages := updated, isLoading := false }
  | .error e =>
      { st with
          messages := st.messages ++ [settleErrorMessage e nowErr]
          isLoading := false }

/-- A whole send as observed after it settles: phase 1, and, when a dispatch
happened, the settling continuation with the given outcome. -/
def sendSettled (st : AppState) (now nowErr : Nat)
    (outcome : Except JsError (List Message)) : AppState :=
  match handleSendPhase1 st now with
  | (st1, .dispatched _ _) => handleSendSettle st1 nowErr outcome
  | (st1, _) => st1

/-- Whether the last two entries of a message list are a user message
followed by an assistant message. -/
def lastTwoUserThenAssistant (l : List Message) : Bool :=
  match l.reverse with
  | a :: u :: _ => u.role == Role.user && a.role == Role.assistant
  | _ => false

/-- Whether a message list is in chronological (oldest-first) order of
timestamps. -/
def chronologicalB : List Message → Bool
  | [] => true
  | [_] => true
  | a :: b :: rest => decide (a.timestamp ≤ b.timestamp) && chronologicalB (b :: rest)

/-! ## handleSelectSession (App.tsx, lines 189-201) -/

/-- `handleSelectSession(sessionId)`: `setIsLoading(true)`, `setSessionId`,
then `await getSessionMessages(sessionId)` — a network fetch — whose result
replaces `messages` on success and is only logged on failure; `finally`
clears `isLoading`. Returns the new state and the requests issued. -/
def handleSelectSession (st : AppState) (sid : String)
    (fetchRes : Except JsError (List Message)) : AppState × List NetRequest :=
  match fetchRes with
  | .ok msgs =>
      ({ st with sessionId := some sid, messages := msgs, isLoading := false },
       [.fetchMessages sid])
  | .error _ =>
      ({ st with sessionId := some sid, isLoading := false },
       [.fetchMessages sid])

/-! ## handleDeleteSession (App.tsx, lines 233-258) -/

/-- `handleDeleteSession(sessionIdToDelete)`: after a successful remote
delete, filter the local session list; when the deleted id is the active
one, either `handleSelectSession` on `sessions.find(s => s.id !== id)` when
`sessions.length > 1` (the pre-delete list), or clear the active session
and the messages. A failed remote delete only clears `isLoading`. -/
def handleDeleteSession (st : AppState) (idToDelete : String)
    (deleteRes : Except JsError Unit)
    (fetchRes : Except JsError (List Message)) : AppState :=
  match deleteRes with
  | .error _ => { st with isLoading := false }
  | .ok _ =>
      let remaining := st.sessions.filter (fun s => decide (s.id ≠ idToDelete))
      let st1 := { st with sessions := remaining, isLoading := false }
      if st.sessionId = some idToDelete then
        if 1 < st.sessions.length then
          match st.sessions.find? (fun s => decide (s.id ≠ idToDelete)) with
          | some next => (handleSelectSession st1 next.id fetchRes).1
          | none => st1
        else
          { st1 with sessionId := none, messages := [] }
      else st1

/-! ## sendMessageToAssistant (services, lines 62-162): retrieval phase

After dispatching the user message and creating the run, the function either
streams (when an `onMessageUpdate` callback was supplied) or polls. Both
paths are embedded below over an explicit environment carrying what the
remote service answers.
-/

/-- Run status enum of the Assistants API. -/
inductive RunStatus where
  | queued
  | inProgress
  | completed
  | failed
  | cancelled
  | expired
deriving Repr, DecidableEq, BEq

/-- The wire spelling of a run status. -/
def statusText : RunStatus → String
  | .queued => "queued"
  | .inProgress => "in_progress"
  | .completed => "completed"
  | .failed => "failed"
  | .cancelled => "cancelled"
  | .expired => "expired"

/-- The statuses the polling loop throws on:
`failed`, `cancelled`, `expired`. -/
def isTerminalFailure : RunStatus → Bool
  | .failed => true
  | .cancelled => true
  | .expired => true
  | _ => false

/-- The fixed delay `setTimeout(resolve, 1000)` between two polls, in ms. -/
def pollDelayMs : Nat := 1000

/-- Outcome of the polling loop over the statuses observed so far.
The `Nat` is the total milliseconds slept in the loop. `pending` means every
observed status was non-terminal and the loop is still polling. -/
inductive PollOutcome where
  | done (sleptMs : Nat)
  | failedRun (s : RunStatus) (sleptMs : Nat)
  | pending (sleptMs : Nat)
deriving Repr, DecidableEq

/-- The polling loop of `sendMessageToAssistant`: check the retrieved status;
`completed` exits; `failed | cancelled | expired` throws; anything else
sleeps 1000 ms and retrieves again. No iteration bound exists. -/
def pollSteps : List RunStatus → Nat → PollOutcome
  | [], d => .pending d
  | s :: rest, d =>
    if s = RunStatus.completed then .done d
    else if isTerminalFailure s then .failedRun s d
    else pollSteps rest (d + pollDelayMs)

/-- One item of a thread message `content` array: a text item carrying
`text.value`, or anything else. -/
inductive ContentItem where
  | textItem (value : String)
  | otherItem
deriving Repr, DecidableEq

/-- The `item.type === 'text'` test. -/
def isTextItem : ContentItem → Bool
  | .textItem _ => true
  | .otherItem => false

/-- A message as returned by `openai.beta.threads.messages.list`. -/
structure ThreadMessage where
  content : List ContentItem
deriving Repr, DecidableEq

/-- Content extraction after a completed poll: `messages.data[0]` (the feed
is assumed newest-first), then `.content.find(item => item.type === 'text')`,
defaulting to the empty string. An empty feed makes `messages.data[0]`
undefined and the property access throw. -/
def extractLatestContent : List ThreadMessage → Except String String
  | [] => .error "TypeError: Cannot read properties of undefined"
  | m :: _ =>
      .ok (match m.content.find? isTextItem with
           | some (.textItem v) => v
           | _ => "")

/-- A named event of the run stream. -/
inductive StreamEvent where
  | textDelta (s : String)
  | errorEvt (payload : String)
  | otherEvt
deriving Repr, DecidableEq

/-- Observable outcome of the streaming section: the values emitted through
`onMessageUpdate`, the accumulated `fullContent`, and the message of the
rethrown `Error` if one was thrown. -/
structure StreamRun where
  emissions : List String
  fullContent : String
  thrown : Option String
deriving Repr, DecidableEq

/-- The `for await (const event of stream)` loop: a text delta is appended
to `fullContent` and the concatenation emitted; an `error` event emits
`Error: Streaming error: ...` and throws (the catch emits the same text
again and rethrows); other events are skipped. -/
def streamLoop (acc : String) : List StreamEvent → StreamRun
  | [] => { emissions := [], fullContent := acc, thrown := none }
  | .textDelta s :: evs =>
      let acc2 := acc ++ s
      let r := streamLoop acc2 evs
      { r with emissions := acc2 :: r.emissions }
  | .errorEvt p :: _ =>
      let m := "Streaming error: " ++ p
      { emissions := ["Error: " ++ m, "Error: " ++ m], fullContent := acc, thrown := some m }
  | .otherEvt :: evs => streamLoop acc evs

/-- The whole streaming section: `openai.beta.threads.runs.stream` either
throws (the catch emits `Error: ...` and rethrows — it does not fall back to
polling) or yields the event list processed by `streamLoop`. -/
def runStreamSection (openRes : Except String (List StreamEvent)) : StreamRun :=
  match openRes with
  | .error e => { emissions := ["Error: " ++ e], fullContent := "", thrown := some e }
  | .ok evs => streamLoop "" evs

deriving instance DecidableEq for Except

/-- What the remote service answers during one retrieval: the result of
opening the stream, the successive run statuses retrieved by polling, and
the authoritative message feed (newest-first) fetched after completion. -/
structure SendEnv where
  streamOpen : Except String (List StreamEvent)
  pollStatuses : List RunStatus
  feed : List ThreadMessage
deriving Repr, DecidableEq

/-- Observable trace of the retrieval phase: whether `runs.stream` was
called, whether the polling path ran, the streamed emissions, and the
result (`none` while the unbounded polling loop is still running). -/
structure RetrievalTrace where
  streamAttempted : Bool
  polled : Bool
  emissions : List String
  result : Option (Except String String)
deriving Repr, DecidableEq

/-- The retrieval phase of `sendMessageToAssistant`: the
`if (onMessageUpdate)` branch streams and returns `fullContent` (or
rethrows); the `else` branch polls and, on `completed`, fetches the feed and
extracts the latest content; a terminal failure status throws
`Run ended with status: <status>`. -/
def runRetrieval (hasCallback : Bool) (env : SendEnv) : RetrievalTrace :=
  if hasCallback then
    let r := runStreamSection env.streamOpen
    { streamAttempted := true
      polled := false
      emissions := r.emissions
      result := some (match r.thrown with
                      | some e => .error e
                      | none => .ok r.fullContent) }
  else
    { streamAttempted := false
      polled := true
      emissions := []
      result :=
        match pollSteps env.pollStatuses 0 with
        | .done _ => some (extractLatestContent env.feed)
        | .failedRun s _ => some (.error ("Run ended with status: " ++ statusText s))
        | .pending _ => none }

/-- Concatenation of a list of strings, for stating delta accumulation. -/
def concatList : List String → String
  | [] => ""
  | s :: rest => s ++ concatList rest

/-! ## Concrete sample data for counterexamples and witnesses -/

/-- A session list with two distinct sessions. -/
def sampleSessions : List Session :=
  [{ id := "a", company_uuid := "cu", openai_thread_id := "ta" },
   { id := "b", company_uuid := "cu", openai_thread_id := "tb" }]

/-- An idle state with active session `a` and input `hi`. -/
def stActive : AppState :=
  { messages := [], input := "hi", isLoading := false,
    sessionId := some "a", sessions := sampleSessions }

/-- An idle state with no active session and input `hi`. -/
def stNoSession : AppState :=
  { messages := [], input := "hi", isLoading := false,
    sessionId := none, sessions := sampleSessions }

/-- A newest-first authoritative feed: the assistant reply (timestamp 2)
before the user message (timestamp 1). -/
def feedNewestFirst : List Message :=
  [{ id := "m2", content := ["reply"], role := .assistant, timestamp := 2 },
   { id := "m1", content := ["hi"], role := .user, timestamp := 1 }]

/-- An environment whose stream fails to open. -/
def envOpenFail : SendEnv :=
  { streamOpen := .error "network failure",
    pollStatuses := [.completed],
    feed := [] }

/-! ## Helper lemmas -/

theorem handleSendPhase1_noop (st : AppState) (now : Nat)
    (h : jsTrim st.input = "" ∨ st.isLoading = true) :
    handleSendPhase1 st now = (st, .noop) := by
  unfold handleSendPhase1
  rw [if_pos h]

theorem handleSendPhase1_dispatch (st : AppState) (now : Nat) (sid : String)
    (h1 : jsTrim st.input ≠ "") (h2 : st.isLoading = false) (h3 : st.sessionId = some sid) :
    handleSendPhase1 st now =
      ({ st with messages := st.messages ++ [userMessageOf st.input now],
                 input := "", isLoading := true },
       .dispatched sid (jsTrim st.input)) := by
  simp [handleSendPhase1, h1, h2, h3]

theorem lastTwo_append_pair (l : List Message) (u a : Message) :
    lastTwoUserThenAssistant (l ++ [u, a])
      = (u.role == Role.user && a.role == Role.assistant) := by
  simp [lastTwoUserThenAssistant, List.reverse_append]

theorem one_lt_length_of_two_mem {α : Type} {l : List α} {a b : α}
    (ha : a ∈ l) (hb : b ∈ l) (hne : a ≠ b) : 1 < l.length := by
  cases l with
  | nil => cases ha
  | cons x xs =>
      cases xs with
      | nil =>
          simp only [List.mem_singleton] at ha hb
          exact absurd (ha.trans hb.symm) hne
      | cons y ys => simp [List.length]

theorem length_le_one_of_all_eq {l : List String} {a : String}
    (hnd : l.Nodup) (hall : ∀ x ∈ l, x = a) : l.length ≤ 1 := by
  cases l with
  | nil => simp
  | cons x xs =>
      cases xs with
      | nil => simp
      | cons y ys =>
          have hx : x = a := hall x (by simp)
          have hy : y = a := hall y (by simp)
          subst hx
          rw [hy] at hnd
          simp [List.nodup_cons] at hnd

theorem pollSteps_skip_nonterminal (pre : List RunStatus)
    (h : ∀ x ∈ pre, x = RunStatus.queued ∨ x = RunStatus.inProgress) :
    ∀ (rest : List RunStatus) (d : Nat),
    pollSteps (pre ++ rest) d = pollSteps rest (d + pollDelayMs * pre.length) := by
  induction pre with
  | nil => intro rest d; simp
  | cons s ss ih =>
      intro rest d
      have hss : ∀ x ∈ ss, x = RunStatus.queued ∨ x = RunStatus.inProgress :=
        fun x hx => h x (by simp [hx])
      have harith : d + pollDelayMs + pollDelayMs * ss.length
          = d + pollDelayMs * (ss.length + 1) := by
        simp only [pollDelayMs]
        omega
      rcases h s (by simp) with h' | h' <;> subst h' <;>
        simp [pollSteps, isTerminalFailure, ih hss rest (d + pollDelayMs), harith]

theorem streamLoop_textDeltas (deltas : List String) : ∀ acc : String,
    (streamLoop acc (deltas.map StreamEvent.textDelta)).emissions
      = (List.range deltas.length).map (fun n => acc ++ concatList (deltas.take (n + 1)))
    ∧ (streamLoop acc (deltas.map StreamEvent.textDelta)).fullContent
      = acc ++ concatList deltas
    ∧ (streamLoop acc (deltas.map StreamEvent.textDelta)).thrown = none := by
  induction deltas with
  | nil =>
      intro acc
      simp [streamLoop, concatList, String.append_empty]
  | cons d ds ih =>
      intro acc
      obtain ⟨h1, h2, h3⟩ := ih (acc ++ d)
      refine ⟨?_, ?_, ?_⟩
      · show (acc ++ d) :: (streamLoop (acc ++ d) (ds.map StreamEvent.textDelta)).emissions = _
        rw [h1, List.length_cons, List.range_succ_eq_map, List.map_cons, List.map_map]
        congr 1
        · simp [concatList, String.append_empty]
        · congr 1
          funext n
          simp only [Function.comp, Nat.succ_eq_add_one, List.take_succ_cons, concatList,
            String.append_assoc]
      · show (streamLoop (acc ++ d) (ds.map StreamEvent.textDelta)).fullContent = _
        rw [h2, concatList, String.append_assoc]
      · exact h3


/-! ## Claim theorems -/

/-- Claim C9: `extractSuffixFromToken` returns `none` for a token of fewer
than 10 characters, and otherwise the 10-character string made of the first
5 characters followed by the last 5 characters; a token of exactly length 10
is returned unchanged. -/
theorem claim_C9_extractSuffix (token : String) :
    (token.length < 10 → extractSuffixFromToken token = none)
    ∧ (10 ≤ token.length →
        extractSuffixFromToken token
          = some (jsSubstring token 0 5 ++ jsSubstringFrom token (token.length - 5))
        ∧ (jsSubstring token 0 5).data = token.data.take 5
        ∧ (jsSubstringFrom token (token.length - 5)).data
            = token.data.drop (token.data.length - 5)
        ∧ (jsSubstring token 0 5 ++ jsSubstringFrom token (token.length - 5)).length = 10)
    ∧ (token.length = 10 → extractSuffixFromToken token = some token) := by
  refine ⟨?_, ?_, ?_⟩
  · intro h
    simp [extractSuffixFromToken, h]
  · intro h
    have hlen : token.data.length = token.length := rfl
    refine ⟨by simp [extractSuffixFromToken, Nat.not_lt.mpr h], ?_, rfl, ?_⟩
    · simp [jsSubstring]
    · have ha : (jsSubstring token 0 5).length = 5 := by
        show ((token.data.take 5).drop 0).length = 5
        rw [List.drop_zero, List.length_take]
        omega
      have hb : (jsSubstringFrom token (token.length - 5)).length = 5 := by
        show (token.data.drop (token.length - 5)).length = 5
        rw [List.length_drop]
        omega
      rw [String.length_append, ha, hb]
  · intro h
    have hlen : token.data.length = 10 := h
    have hnot : ¬ token.length < 10 := by omega
    simp only [extractSuffixFromToken, hnot, if_false, Option.some.injEq]
    apply String.ext
    rw [String.data_append]
    simp only [jsSubstring, jsSubstringFrom, h]
    rw [List.drop_zero]
    show token.data.take 5 ++ token.data.drop 5 = token.data
    exact List.take_append_drop 5 token.data

/-- Witness for C9 at concrete tokens of length 3, 10 and 12. -/
theorem claim_C9_witness :
    extractSuffixFromToken "abc" = none
    ∧ extractSuffixFromToken "abcdefghij" = some "abcdefghij"
    ∧ extractSuffixFromToken "abcdefghijkl"
        = some (jsSubstring "abcdefghijkl" 0 5
            ++ jsSubstringFrom "abcdefghijkl" ("abcdefghijkl".length - 5)) :=
  ⟨(claim_C9_extractSuffix "abc").1 (by decide),
   (claim_C9_extractSuffix "abcdefghij").2.2 (by decide),
   ((claim_C9_extractSuffix "abcdefghijkl").2.1 (by decide)).1⟩

/-- Claim C6: for a stream of text deltas applied to an initially empty
pending message, the n-th value emitted through `onMessageUpdate` is the
concatenation of the first n+1 deltas, the content returned after the
stream completes is the concatenation of all deltas, nothing is thrown, and
the `"Hel" / "lo" / " world"` scenario emits `"Hel"`, `"Hello"`,
`"Hello world"`. -/
theorem claim_C6_deltaAccumulation (deltas : List String) :
    (runStreamSection (.ok (deltas.map StreamEvent.textDelta))).emissions
      = (List.range deltas.length).map (fun n => concatList (deltas.take (n + 1)))
    ∧ (runStreamSection (.ok (deltas.map StreamEvent.textDelta))).fullContent
        = concatList deltas
    ∧ (runStreamSection (.ok (deltas.map StreamEvent.textDelta))).thrown = none
    ∧ (runRetrieval true
        { streamOpen := .ok (deltas.map StreamEvent.textDelta),
          pollStatuses := [], feed := [] }).result
        = some (.ok (concatList deltas))
    ∧ (runStreamSection (.ok (["Hel", "lo", " world"].map StreamEvent.textDelta))).emissions
        = ["Hel", "Hello", "Hello world"] := by
  obtain ⟨h1, h2, h3⟩ := streamLoop_textDeltas deltas ""
  refine ⟨?_, ?_, ?_, ?_, by decide⟩
  · rw [runStreamSection, h1]
    simp [String.empty_append]
  · rw [runStreamSection, h2, String.empty_append]
  · rw [runStreamSection, h3]
  · show (runRetrieval true _).result = _
    rw [runRetrieval]
    simp only [if_true, runStreamSection, h3, h2, String.empty_append]

/-- Claim C2 counterexample: the reconciliation step after a send
(`setMessages(updatedMessages)`) stores the authoritative feed verbatim, so
a newest-first feed is stored newest-first, not in chronological
oldest-first order. -/
theorem claim_C2_counterexample :
    (handleSendSettle stActive 9 (.ok feedNewestFirst)).messages = feedNewestFirst
    ∧ chronologicalB (handleSendSettle stActive 9 (.ok feedNewestFirst)).messages = false
    ∧ (handleSendSettle stActive 9 (.ok feedNewestFirst)).messages
        ≠ feedNewestFirst.reverse := by
  refine ⟨rfl, by decide, by decide⟩

/-- Claim C2 (amended): the reconciliation step stores the authoritative
list exactly in the order received — it neither reverses nor re-sorts — so
the stored order is chronological exactly when the feed itself already is. -/
theorem claim_C2_amended (st : AppState) (nowErr : Nat) (feed : List Message) :
    (handleSendSettle st nowErr (.ok feed)).messages = feed
    ∧ chronologicalB (handleSendSettle st nowErr (.ok feed)).messages
        = chronologicalB feed := ⟨rfl, rfl⟩

/-- Claim C7 counterexample: `handleSelectSession` performs a network
request (`getSessionMessages`), contradicting the claim that selecting a
session never touches the network. -/
theorem claim_C7_counterexample :
    (handleSelectSession stActive "b" (.ok [])).2 ≠ [] := by decide

/-- Claim C7 (amended): `handleSelectSession(id)` sets the active session
and clears `isLoading`, but it issues exactly one network request to fetch
the session's messages; the fetched list replaces the local messages on
success, while a fetch failure is swallowed (the call itself never throws)
and leaves the local messages unchanged. -/
theorem claim_C7_amended (st : AppState) (sid : String) (msgs : List Message)
    (e : JsError) (fetchRes : Except JsError (List Message)) :
    (handleSelectSession st sid fetchRes).2 = [NetRequest.fetchMessages sid]
    ∧ (handleSelectSession st sid fetchRes).1.sessionId = some sid
    ∧ (handleSelectSession st sid fetchRes).1.isLoading = false
    ∧ (handleSelectSession st sid (.ok msgs)).1.messages = msgs
    ∧ (handleSelectSession st sid (.error e)).1.messages = st.messages := by
  cases fetchRes <;> simp [handleSelectSession]

/-- Claim C3 counterexample: with a streaming callback supplied and the
stream failing to open (`runs.stream` throwing), the send does not fall
back to polling — the error is rethrown. -/
theorem claim_C3_counterexample :
    (runRetrieval true envOpenFail).polled = false
    ∧ (runRetrieval true envOpenFail).result = some (.error "network failure")
    ∧ (runRetrieval true envOpenFail).emissions = ["Error: " ++ "network failure"] := by
  refine ⟨rfl, rfl, rfl⟩

/-- Claim C3 (amended): when no streaming callback is supplied the reply is
obtained by the polling path without `runs.stream` ever being called, and a
completed poll proceeds to the authoritative message fetch; but when the
stream fails to open, the send does not fall back to polling — the open
error is emitted to the observer as an `Error:`-prefixed update and
rethrown, failing the send. -/
theorem claim_C3_amended (env : SendEnv) (e : String) (d : Nat) :
    ((runRetrieval false env).streamAttempted = false
     ∧ (runRetrieval false env).polled = true)
    ∧ (pollSteps env.pollStatuses 0 = .done d →
        (runRetrieval false env).result = some (extractLatestContent env.feed))
    ∧ (env.streamOpen = .error e →
        (runRetrieval true env).polled = false
        ∧ (runRetrieval true env).result = some (.error e)
        ∧ (runRetrieval true env).emissions = ["Error: " ++ e]) := by
  refine ⟨⟨rfl, rfl⟩, ?_, ?_⟩
  · intro h
    simp [runRetrieval, h]
  · intro h
    simp [runRetrieval, runStreamSection, h]

/-- Witness for C3: the polling-only environment reaches the message fetch
with no stream call, and a concrete failed stream open does not poll. -/
theorem claim_C3_witness :
    (runRetrieval false envOpenFail).streamAttempted = false
    ∧ (runRetrieval false envOpenFail).result = some (extractLatestContent envOpenFail.feed)
    ∧ (runRetrieval true envOpenFail).polled = false := by
  obtain ⟨⟨hA, _⟩, hB, hC⟩ := claim_C3_amended envOpenFail "network failure" 0
  exact ⟨hA, hB (by decide), (hC rfl).1⟩

/-- Claim C4: the polling loop exits on `completed` (after one fixed
1000 ms sleep per preceding non-terminal status) and proceeds to the
authoritative message fetch; a terminal `failed`/`cancelled`/`expired`
status throws `Run ended with status: <status>`; non-terminal statuses keep
the loop polling with no iteration bound; and the thrown `failed` error,
settled through the orchestrator, appends an assistant message whose text
names the `failed` status, with the busy flag cleared. -/
theorem claim_C4_polling (pre rest : List RunStatus) (s : RunStatus)
    (env : SendEnv) (st : AppState) (nowErr n : Nat)
    (h : ∀ x ∈ pre, x = RunStatus.queued ∨ x = RunStatus.inProgress) :
    pollSteps (pre ++ RunStatus.completed :: rest) 0
      = .done (pollDelayMs * pre.length)
    ∧ (isTerminalFailure s = true →
        pollSteps (pre ++ s :: rest) 0 = .failedRun s (pollDelayMs * pre.length))
    ∧ (env.pollStatuses = pre ++ RunStatus.completed :: rest →
        (runRetrieval false env).result = some (extractLatestContent env.feed))
    ∧ (env.pollStatuses = pre ++ RunStatus.failed :: rest →
        (runRetrieval false env).result
          = some (.error ("Run ended with status: " ++ statusText RunStatus.failed)))
    ∧ pollSteps pre 0 = .pending (pollDelayMs * pre.length)
    ∧ pollSteps (List.replicate n RunStatus.inProgress ++ [RunStatus.completed]) 0
        = .done (pollDelayMs * n)
    ∧ ((handleSendSettle st nowErr
          (.error (.errObj ("Run ended with status: " ++ statusText RunStatus.failed)))).isLoading
        = false
       ∧ (handleSendSettle st nowErr
            (.error (.errObj ("Run ended with status: " ++ statusText RunStatus.failed)))).messages
          = st.messages
            ++ [settleErrorMessage
                  (.errObj ("Run ended with status: " ++ statusText RunStatus.failed)) nowErr]
       ∧ (settleErrorMessage
            (.errObj ("Run ended with status: " ++ statusText RunStatus.failed)) nowErr).role
          = Role.assistant
       ∧ (settleErrorMessage
            (.errObj ("Run ended with status: " ++ statusText RunStatus.failed)) nowErr).content
          = ["Run ended with status: failed"]) := by
  have hcompleted :
      pollSteps (pre ++ RunStatus.completed :: rest) 0 = .done (pollDelayMs * pre.length) := by
    rw [pollSteps_skip_nonterminal pre h (RunStatus.completed :: rest) 0]
    simp [pollSteps]
  have hfailure : ∀ s' : RunStatus, isTerminalFailure s' = true →
      pollSteps (pre ++ s' :: rest) 0 = .failedRun s' (pollDelayMs * pre.length) := by
    intro s' hs'
    rw [pollSteps_skip_nonterminal pre h (s' :: rest) 0]
    have hne : s' ≠ RunStatus.completed := by
      intro hEq
      rw [hEq] at hs'
      simp [isTerminalFailure] at hs'
    simp [pollSteps, hne, hs']
  refine ⟨hcompleted, hfailure s, ?_, ?_, ?_, ?_, rfl, ?_, rfl, rfl⟩
  · intro henv
    simp [runRetrieval, henv, hcompleted]
  · intro henv
    simp [runRetrieval, henv, hfailure RunStatus.failed rfl]
  · have := pollSteps_skip_nonterminal pre h [] 0
    simpa [pollSteps] using this
  · have hrep : ∀ x ∈ List.replicate n RunStatus.inProgress,
        x = RunStatus.queued ∨ x = RunStatus.inProgress := by
      intro x hx
      exact Or.inr (List.eq_of_mem_replicate hx)
    rw [pollSteps_skip_nonterminal (List.replicate n RunStatus.inProgress) hrep
      [RunStatus.completed] 0]
    simp [pollSteps]
  · simp [handleSendSettle]

/-- Witness for C4: two non-terminal polls then `completed` finish after
2000 ms of sleeping. -/
theorem claim_C4_witness :
    pollSteps [RunStatus.queued, RunStatus.inProgress, RunStatus.completed] 0
      = PollOutcome.done 2000 := by
  have hw := (claim_C4_polling [RunStatus.queued, RunStatus.inProgress] []
    RunStatus.failed envOpenFail stActive 0 0 (by simp)).1
  simpa [pollDelayMs] using hw

/-- Claim C5: a send with empty or whitespace-only text, or while a send is
already in flight (`isLoading`), is a no-op: the state is unchanged and no
network request is issued; hence a second back-to-back send while the first
is in flight contributes nothing, and the settled first send appends
exactly the one user/assistant pair. -/
theorem claim_C5_guards (st : AppState) (now now2 nowErr : Nat)
    (sid text2 : String) (e : JsError) :
    (jsTrim st.input = "" → handleSendPhase1 st now = (st, .noop))
    ∧ (st.isLoading = true → handleSendPhase1 st now = (st, .noop))
    ∧ sendRequests SendAction.noop = []
    ∧ (st.isLoading = false → jsTrim st.input ≠ "" → st.sessionId = some sid →
        handleSendPhase1 { (handleSendPhase1 st now).1 with input := text2 } now2
          = ({ (handleSendPhase1 st now).1 with input := text2 }, .noop)
        ∧ (handleSendSettle (handleSendPhase1 st now).1 nowErr (.error e)).messages
            = st.messages ++ [userMessageOf st.input now, settleErrorMessage e nowErr]) := by
  refine ⟨?_, ?_, rfl, ?_⟩
  · intro h
    exact handleSendPhase1_noop st now (Or.inl h)
  · intro h
    exact handleSendPhase1_noop st now (Or.inr h)
  · intro h2 h1 h3
    rw [handleSendPhase1_dispatch st now sid h1 h2 h3]
    constructor
    · exact handleSendPhase1_noop _ now2 (Or.inr rfl)
    · simp [handleSendSettle]

/-- Witness for C5: a whitespace-only send and a busy send are no-ops on a
concrete state, and the back-to-back scenario on `stActive` yields exactly
the one user/assistant pair once the first send settles. -/
theorem claim_C5_witness :
    handleSendPhase1 { stActive with input := "   " } 0
      = ({ stActive with input := "   " }, SendAction.noop)
    ∧ handleSendPhase1 { stActive with isLoading := true } 0
      = ({ stActive with isLoading := true }, SendAction.noop)
    ∧ (handleSendSettle (handleSendPhase1 stActive 3).1 9
        (.error (.errObj "boom"))).messages
      = stActive.messages
        ++ [userMessageOf stActive.input 3, settleErrorMessage (.errObj "boom") 9] :=
  ⟨(claim_C5_guards { stActive with input := "   " } 0 0 0 "a" "x" .otherVal).1 (by decide),
   (claim_C5_guards { stActive with isLoading := true } 0 0 0 "a" "x" .otherVal).2.1 rfl,
   ((claim_C5_guards stActive 3 0 9 "a" "x" (.errObj "boom")).2.2.2 rfl (by decide) rfl).2⟩

/-- Claim C10: a non-empty send with no active session still appends the
optimistic user message, then immediately appends a synthetic assistant
message beginning with `Error: No active session`, clears the busy flag,
and dispatches no network request. -/
theorem claim_C10_noSession (st : AppState) (now : Nat)
    (h1 : jsTrim st.input ≠ "") (h2 : st.isLoading = false)
    (h3 : st.sessionId = none) :
    (handleSendPhase1 st now).2 = SendAction.noSession
    ∧ sendRequests (handleSendPhase1 st now).2 = []
    ∧ (handleSendPhase1 st now).1.isLoading = false
    ∧ (handleSendPhase1 st now).1.messages
        = st.messages ++ [userMessageOf st.input now, noSessionMessage now]
    ∧ (noSessionMessage now).role = Role.assistant
    ∧ (noSessionMessage now).content
        = ["Error: No active session" ++ ". Please create a new conversation."] := by
  refine ⟨?_, ?_, ?_, ?_, rfl, rfl⟩ <;>
    simp [handleSendPhase1, h1, h2, h3, sendRequests]

/-- Witness for C10 on the concrete no-session state. -/
theorem claim_C10_witness :
    (handleSendPhase1 stNoSession 5).2 = SendAction.noSession
    ∧ (handleSendPhase1 stNoSession 5).1.messages
      = stNoSession.messages ++ [userMessageOf stNoSession.input 5, noSessionMessage 5] :=
  ⟨(claim_C10_noSession stNoSession 5 (by decide) rfl rfl).1,
   (claim_C10_noSession stNoSession 5 (by decide) rfl rfl).2.2.2.1⟩

/-- Claim C1 counterexample: a send that settles successfully replaces the
local messages with the authoritative feed verbatim, so with a newest-first
feed the settled state does not end in a user message followed by an
assistant message. -/
theorem claim_C1_counterexample :
    (sendSettled stActive 3 9 (.ok feedNewestFirst)).isLoading = false
    ∧ lastTwoUserThenAssistant (sendSettled stActive 3 9 (.ok feedNewestFirst)).messages
        = false := by decide

/-- Claim C1 (amended): after a settled non-empty send on an active session
the busy flag is false in every case; when the send fails, the last two
messages are the just-sent user message followed by the error-display
assistant message; when it succeeds, the local messages become the
authoritative feed verbatim, so the user/assistant pairing at the end holds
exactly when the feed itself ends with such a pair. -/
theorem claim_C1_amended (st : AppState) (now nowErr : Nat) (sid : String)
    (e : JsError) (feed : List Message)
    (h1 : jsTrim st.input ≠ "") (h2 : st.isLoading = false)
    (h3 : st.sessionId = some sid) :
    ((sendSettled st now nowErr (.error e)).isLoading = false
     ∧ (sendSettled st now nowErr (.error e)).messages
         = st.messages ++ [userMessageOf st.input now, settleErrorMessage e nowErr]
     ∧ lastTwoUserThenAssistant (sendSettled st now nowErr (.error e)).messages = true)
    ∧ ((sendSettled st now nowErr (.ok feed)).isLoading = false
       ∧ (sendSettled st now nowErr (.ok feed)).messages = feed
       ∧ lastTwoUserThenAssistant (sendSettled st now nowErr (.ok feed)).messages
           = lastTwoUserThenAssistant feed) := by
  have hdisp := handleSendPhase1_dispatch st now sid h1 h2 h3
  refine ⟨⟨?_, ?_, ?_⟩, ?_, ?_, ?_⟩
  · simp [sendSettled, hdisp, handleSendSettle]
  · simp [sendSettled, hdisp, handleSendSettle]
  · simp only [sendSettled, hdisp, handleSendSettle, List.append_assoc,
      List.cons_append, List.nil_append, lastTwo_append_pair]
    simp only [userMessageOf, settleErrorMessage]
    decide
  · simp [sendSettled, hdisp, handleSendSettle]
  · simp [sendSettled, hdisp, handleSendSettle]
  · simp [sendSettled, hdisp, handleSendSettle]

/-- Witness for C1: a concrete failed send on `stActive` ends busy-free
with a paired user/assistant tail. -/
theorem claim_C1_witness :
    (sendSettled stActive 3 9 (.error (.errObj "boom"))).isLoading = false
    ∧ lastTwoUserThenAssistant
        (sendSettled stActive 3 9 (.error (.errObj "boom"))).messages = true :=
  ⟨(claim_C1_amended stActive 3 9 "a" (.errObj "boom") [] (by decide) rfl rfl).1.1,
   (claim_C1_amended stActive 3 9 "a" (.errObj "boom") [] (by decide) rfl rfl).1.2.2⟩

/-- Claim C8: deleting the active session selects some other locally known
session when one exists, and otherwise leaves no active session and an
empty message list. Local session ids are assumed unique (the service
assigns them) and the active id locally known. -/
theorem claim_C8_deleteActive (st : AppState) (sid : String)
    (fetchRes : Except JsError (List Message))
    (h1 : st.sessionId = some sid)
    (h2 : sid ∈ st.sessions.map Session.id)
    (h3 : (st.sessions.map Session.id).Nodup) :
    ((∃ s ∈ st.sessions, s.id ≠ sid) →
        ∃ s ∈ st.sessions, s.id ≠ sid
          ∧ (handleDeleteSession st sid (.ok ()) fetchRes).sessionId = some s.id)
    ∧ ((∀ s ∈ st.sessions, s.id = sid) →
        (handleDeleteSession st sid (.ok ()) fetchRes).sessionId = none
        ∧ (handleDeleteSession st sid (.ok ()) fetchRes).messages = []) := by
  obtain ⟨s0, hs0mem, hs0id⟩ := List.mem_map.mp h2
  constructor
  · rintro ⟨s1, hs1mem, hs1id⟩
    have hne : s1 ≠ s0 := fun hEq => hs1id (hEq ▸ hs0id)
    have hlen : 1 < st.sessions.length := one_lt_length_of_two_mem hs1mem hs0mem hne
    have hfind : st.sessions.find? (fun s => decide (s.id ≠ sid)) ≠ none := by
      intro hnone
      have hall := List.find?_eq_none.mp hnone s1 hs1mem
      simp [hs1id] at hall
    rcases hfound : st.sessions.find? (fun s => decide (s.id ≠ sid)) with _ | next
    · exact absurd hfound hfind
    · have hnextmem : next ∈ st.sessions := List.mem_of_find?_eq_some hfound
      have hnextid : next.id ≠ sid := by
        have := List.find?_some hfound
        simpa using this
      refine ⟨next, hnextmem, hnextid, ?_⟩
      rw [handleDeleteSession]
      simp only [h1, if_pos rfl, if_pos hlen, hfound]
      cases fetchRes <;> rfl
  · intro hall
    have hle : (st.sessions.map Session.id).length ≤ 1 :=
      length_le_one_of_all_eq h3 (by
        intro x hx
        obtain ⟨s2, hs2mem, hs2id⟩ := List.mem_map.mp hx
        rw [← hs2id]
        exact hall s2 hs2mem)
    have hlen : ¬ 1 < st.sessions.length := by
      rw [← List.length_map st.sessions Session.id]
      omega
    rw [handleDeleteSession]
    simp only [h1, if_pos rfl, if_neg hlen]
    exact ⟨rfl, rfl⟩

/-- Witness for C8: deleting the active session `a` of `stActive` makes the
other known session the active one. -/
theorem claim_C8_witness :
    ∃ s ∈ stActive.sessions, s.id ≠ "a"
      ∧ (handleDeleteSession stActive "a" (.ok ()) (.ok [])).sessionId = some s.id :=
  (claim_C8_deleteActive stActive "a" (.ok []) rfl (by decide) (by decide)).1 (by decide)
